import Mathlib

/-!
Verification development for the HIPRT-Path-Tracer ReSTIR DI resampling core
and the Principled BSDF lobe bookkeeping.

Scalar model: the GPU code computes in IEEE-754 `float`. We model scalars by
`FNum`, exact rationals extended with the IEEE special values `inf`, `ninf`
and `nan` (one unsigned zero, behaving as IEEE `+0`). Finite arithmetic is
exact (no rounding is modelled); the special values follow IEEE semantics
(`x / 0 = ±inf` for `x ≠ 0`, `0 / 0 = nan`, every comparison with `nan` is
false, `nan == x` is false). This captures exactly the guard/edge-case
behaviour the reservoir code branches on.

Pure geometric quantities that never meet a special value in the claims
under study (BSDF mixture weights, IOR nudging, target-function algebra)
are modelled over plain `ℚ`.
-/

/-- IEEE-754-like scalar: exact rational plus special values. -/
inductive FNum where
  | fin (q : ℚ)
  | inf
  | ninf
  | nan
deriving DecidableEq, Repr

namespace FNum

/-- IEEE addition (exact on finite values). -/
def add : FNum → FNum → FNum
  | nan, _ => nan
  | _, nan => nan
  | inf, ninf => nan
  | ninf, inf => nan
  | inf, _ => inf
  | _, inf => inf
  | ninf, _ => ninf
  | _, ninf => ninf
  | fin a, fin b => fin (a + b)

/-- IEEE multiplication (exact on finite values); `0 * inf = nan`. -/
def mul : FNum → FNum → FNum
  | nan, _ => nan
  | _, nan => nan
  | fin a, inf => if a > 0 then inf else if a < 0 then ninf else nan
  | fin a, ninf => if a > 0 then ninf else if a < 0 then inf else nan
  | inf, fin b => if b > 0 then inf else if b < 0 then ninf else nan
  | ninf, fin b => if b > 0 then ninf else if b < 0 then inf else nan
  | inf, inf => inf
  | inf, ninf => ninf
  | ninf, inf => ninf
  | ninf, ninf => inf
  | fin a, fin b => fin (a * b)

/-- IEEE division (exact on finite values); a nonzero finite number divided
by (unsigned, i.e. `+`) zero gives a signed infinity, `0 / 0 = nan`. -/
def div : FNum → FNum → FNum
  | nan, _ => nan
  | _, nan => nan
  | fin a, fin b =>
      if b = 0 then
        if a = 0 then nan else if a > 0 then inf else ninf
      else fin (a / b)
  | fin _, inf => fin 0
  | fin _, ninf => fin 0
  | inf, fin b => if b < 0 then ninf else inf
  | ninf, fin b => if b < 0 then inf else ninf
  | inf, inf => nan
  | inf, ninf => nan
  | ninf, inf => nan
  | ninf, ninf => nan

/-- IEEE `<`: any comparison involving `nan` is false. -/
def blt : FNum → FNum → Bool
  | nan, _ => false
  | _, nan => false
  | fin a, fin b => a < b
  | fin _, inf => true
  | fin _, ninf => false
  | inf, inf => false
  | inf, fin _ => false
  | inf, ninf => false
  | ninf, ninf => false
  | ninf, _ => true

/-- IEEE `==`: `nan` is not equal to anything, including itself. -/
def beq : FNum → FNum → Bool
  | nan, _ => false
  | _, nan => false
  | fin a, fin b => a = b
  | inf, inf => true
  | ninf, ninf => true
  | _, _ => false

instance : Add FNum := ⟨FNum.add⟩
instance : Mul FNum := ⟨FNum.mul⟩
instance : Div FNum := ⟨FNum.div⟩

@[simp] theorem add_fin (a b : ℚ) : (fin a + fin b : FNum) = fin (a + b) := rfl

@[simp] theorem mul_fin (a b : ℚ) : (fin a * fin b : FNum) = fin (a * b) := rfl

@[simp] theorem mul_inf_fin (b : ℚ) :
    (inf * fin b : FNum) = if b > 0 then inf else if b < 0 then ninf else nan := rfl

@[simp] theorem mul_fin_inf (a : ℚ) :
    (fin a * inf : FNum) = if a > 0 then inf else if a < 0 then ninf else nan := rfl

@[simp] theorem div_fin (a b : ℚ) :
    (fin a / fin b : FNum)
      = if b = 0 then (if a = 0 then nan else if a > 0 then inf else ninf)
        else fin (a / b) := rfl

@[simp] theorem blt_fin (a b : ℚ) : blt (fin a) (fin b) = decide (a < b) := rfl

@[simp] theorem blt_fin_inf (a : ℚ) : blt (fin a) inf = true := rfl

@[simp] theorem blt_nan_left (a : FNum) : blt nan a = false := by cases a <;> rfl

@[simp] theorem beq_fin (a b : ℚ) : beq (fin a) (fin b) = decide (a = b) := rfl

@[simp] theorem beq_inf_fin (b : ℚ) : beq inf (fin b) = false := rfl

@[simp] theorem beq_ninf_fin (b : ℚ) : beq ninf (fin b) = false := rfl

@[simp] theorem beq_nan_left (a : FNum) : beq nan a = false := by cases a <;> rfl

end FNum

/-- 3-component vector over exact rationals (models `float3`). -/
structure Vec3 where
  x : ℚ
  y : ℚ
  z : ℚ
deriving DecidableEq, Repr

namespace Vec3

def sub (a b : Vec3) : Vec3 := ⟨a.x - b.x, a.y - b.y, a.z - b.z⟩

def add (a b : Vec3) : Vec3 := ⟨a.x + b.x, a.y + b.y, a.z + b.z⟩

def dot (a b : Vec3) : ℚ := a.x * b.x + a.y * b.y + a.z * b.z

/-- Componentwise division of a vector by a scalar (`float3 / float`). -/
def divScalar (a : Vec3) (s : ℚ) : Vec3 := ⟨a.x / s, a.y / s, a.z / s⟩

/-- Scaling a vector by a scalar. -/
def smul (s : ℚ) (a : Vec3) : Vec3 := ⟨s * a.x, s * a.y, s * a.z⟩

def neg (a : Vec3) : Vec3 := ⟨-a.x, -a.y, -a.z⟩

def zero : Vec3 := ⟨0, 0, 0⟩

end Vec3

/-- RGB radiometric triple over exact rationals (models `ColorRGB32F`).
Multiplication is componentwise modulation, as in the renderer's `Color.h`. -/
structure ColorRGB where
  r : ℚ
  g : ℚ
  b : ℚ
deriving DecidableEq, Repr

namespace ColorRGB

def add (a b : ColorRGB) : ColorRGB := ⟨a.r + b.r, a.g + b.g, a.b + b.b⟩

def mul (a b : ColorRGB) : ColorRGB := ⟨a.r * b.r, a.g * b.g, a.b * b.b⟩

/-- Color scaled by a scalar (`ColorRGB32F * float`). -/
def smul (a : ColorRGB) (s : ℚ) : ColorRGB := ⟨a.r * s, a.g * s, a.b * s⟩

def sub (a b : ColorRGB) : ColorRGB := ⟨a.r - b.r, a.g - b.g, a.b - b.b⟩

def black : ColorRGB := ⟨0, 0, 0⟩

def white : ColorRGB := ⟨1, 1, 1⟩

instance : Add ColorRGB := ⟨ColorRGB.add⟩
instance : Mul ColorRGB := ⟨ColorRGB.mul⟩

end ColorRGB

/-- Implicit bool→float conversion used by the C++ code
(e.g. `material.coat * outside_object`). -/
def boolToQ (b : Bool) : ℚ := if b then 1 else 0

/-! ## Reservoir data structure
Shallow embedding of `src/Device/includes/ReSTIR/ReSTIR_DI_Reservoir.h`.
The RNG (`Xorshift32Generator`, outside `src/`) is modelled by passing the
drawn uniform number `u` explicitly: each method that draws one random
number takes it as an extra argument. Per the spec (§2), the stream
produces uniform floats in `[0,1)`. -/

/-- `struct ReSTIRDISample` from `ReSTIR_DI_Reservoir.h`. -/
structure ReSTIRDISample where
  emissive_triangle_index : Int := -1
  point_on_light_source : Vec3 := Vec3.zero
  target_function : FNum := FNum.fin 0
deriving DecidableEq, Repr

/-- `struct ReSTIRDIReservoir` from `ReSTIR_DI_Reservoir.h` (field part). -/
structure ReSTIRDIReservoir where
  M : Int := 0
  weight_sum : FNum := FNum.fin 0
  UCW : FNum := FNum.fin 0
  sample : ReSTIRDISample := {}
deriving DecidableEq, Repr

namespace ReSTIRDIReservoir

/-- `ReSTIRDIReservoir::add_one_candidate` (lines 27–34):
`M++; weight_sum += weight; if (rng() < weight / weight_sum) sample = new_sample;`
with `u` the value drawn from the RNG. -/
def add_one_candidate (self : ReSTIRDIReservoir) (new_sample : ReSTIRDISample)
    (weight : FNum) (u : FNum) : ReSTIRDIReservoir :=
  let M' := self.M + 1
  let weight_sum' := self.weight_sum + weight
  if FNum.blt u (weight / weight_sum') then
    { self with M := M', weight_sum := weight_sum', sample := new_sample }
  else
    { self with M := M', weight_sum := weight_sum' }

/-- `ReSTIRDIReservoir::combine_with` (lines 50–66). Returns the updated
reservoir together with the `bool` result of the C++ function. -/
def combine_with (self other_reservoir : ReSTIRDIReservoir) (mis_weight : FNum)
    (target_function : FNum) (jacobian_determinant : FNum) (u : FNum) :
    ReSTIRDIReservoir × Bool :=
  let reservoir_sample_weight :=
    mis_weight * target_function * other_reservoir.UCW * jacobian_determinant
  let M' := self.M + other_reservoir.M
  let weight_sum' := self.weight_sum + reservoir_sample_weight
  if FNum.blt u (reservoir_sample_weight / weight_sum') then
    ({ self with
        M := M'
        weight_sum := weight_sum'
        sample := { other_reservoir.sample with target_function := target_function } },
     true)
  else
    ({ self with M := M', weight_sum := weight_sum' }, false)

/-- `ReSTIRDIReservoir::end` (lines 68–74):
`if (weight_sum == 0.0f) UCW = 0.0f; else UCW = 1.0f / sample.target_function * weight_sum;` -/
def «end» (self : ReSTIRDIReservoir) : ReSTIRDIReservoir :=
  if FNum.beq self.weight_sum (FNum.fin 0) then
    { self with UCW := FNum.fin 0 }
  else
    { self with UCW := FNum.fin 1 / self.sample.target_function * self.weight_sum }

/-- `ReSTIRDIReservoir::end_with_normalization` (lines 76–82). -/
def end_with_normalization (self : ReSTIRDIReservoir)
    (normalization_numerator normalization_denominator : FNum) : ReSTIRDIReservoir :=
  if FNum.beq self.weight_sum (FNum.fin 0)
      || FNum.beq normalization_denominator (FNum.fin 0)
      || FNum.beq normalization_numerator (FNum.fin 0) then
    { self with UCW := FNum.fin 0 }
  else
    { self with UCW := FNum.fin 1 / self.sample.target_function * self.weight_sum
        * normalization_numerator / normalization_denominator }

end ReSTIRDIReservoir

/-! ## Target function evaluator
Shallow embedding of `ReSTIR_DI_evaluate_target_function<0>` /
`<1>` from `src/Device/kernels/ReSTIR/ReSTIR_DI_SpatialReuse.h` (lines 39–112)
and `evaluate_shadow_ray` from `src/Device/kernels/path_tracer_kernel.h`
(lines 293–301).

Collaborators that live outside `src/` are modelled as oracle fields of
`TFEnv`, faithful to how the kernel uses them:
  - `length`: `hippt::length` (Euclidean norm; `HostDeviceCommon` math is not
    under `src/`), used only through this oracle;
  - `bsdf_eval`: `bsdf_dispatcher_eval` applied at fixed
    (view, normal, sample_direction);
  - `light_normal`: `normalize(get_triangle_normal_non_normalized(...))`;
  - `emission`: `materials_buffer[material_indices[tri]].emission`;
  - `luminance`: `ColorRGB32F::luminance` (Modelled from the spec: a fixed
    scalarization of RGB; the exact coefficients are irrelevant to the claims);
  - `occluded`: the BVH occlusion oracle behind
    `hiprtGeomTraversalAnyHit` — the spec (§6) treats it as
    `trace_shadow(origin, direction, max_distance) -> bool occluded`. -/
structure TFEnv where
  length : Vec3 → ℚ
  bsdf_eval : Vec3 → Vec3 → Vec3 → ColorRGB
  light_normal : Int → Vec3
  emission : Int → ColorRGB
  luminance : ColorRGB → ℚ
  occluded : Vec3 → Vec3 → ℚ → Bool
  geometry_term_in_target_function : Bool

/-- `evaluate_shadow_ray(render_data, ray, t_max)` from
`path_tracer_kernel.h` lines 293–301: shortens the ray to
`maxT = t_max - 1.0e-4f` and asks the traversal oracle; returns `true`
if in shadow. -/
def evaluate_shadow_ray (env : TFEnv) (origin direction : Vec3) (t_max : ℚ) : Bool :=
  env.occluded origin direction (t_max - 1/10000)

/-- `ReSTIR_DI_evaluate_target_function<0>` (no visibility), lines 39–70. -/
def ReSTIR_DI_evaluate_target_function_novis (env : TFEnv) (sample : ReSTIRDISample)
    (view_direction shading_point shading_normal : Vec3) : ℚ :=
  let diff := Vec3.sub sample.point_on_light_source shading_point
  let distance_to_light := env.length diff
  let sample_direction := Vec3.divScalar diff distance_to_light
  let bsdf_color := env.bsdf_eval view_direction shading_normal sample_direction
  let cosine_term := max 0 (Vec3.dot shading_normal sample_direction)
  let geometry_term :=
    if env.geometry_term_in_target_function then
      let light_source_normal := env.light_normal sample.emissive_triangle_index
      let cosine_at_light_source := |Vec3.dot sample_direction light_source_normal|
      cosine_at_light_source / (distance_to_light * distance_to_light)
    else 1
  let target_function :=
    env.luminance (ColorRGB.smul (bsdf_color * env.emission sample.emissive_triangle_index)
      (cosine_term * geometry_term))
  if target_function = 0 then 0 else target_function

/-- `ReSTIR_DI_evaluate_target_function<1>` (with visibility), lines 73–112.
The second component records whether an occlusion ray was traced (the
source traces exactly on the path that reaches `evaluate_shadow_ray`). -/
def ReSTIR_DI_evaluate_target_function_vis (env : TFEnv) (sample : ReSTIRDISample)
    (view_direction shading_point shading_normal : Vec3) : ℚ × Bool :=
  let diff := Vec3.sub sample.point_on_light_source shading_point
  let distance_to_light := env.length diff
  let sample_direction := Vec3.divScalar diff distance_to_light
  let bsdf_color := env.bsdf_eval view_direction shading_normal sample_direction
  let cosine_term := max 0 (Vec3.dot shading_normal sample_direction)
  let geometry_term :=
    if env.geometry_term_in_target_function then
      let light_source_normal := env.light_normal sample.emissive_triangle_index
      let cosine_at_light_source := |Vec3.dot sample_direction light_source_normal|
      cosine_at_light_source / (distance_to_light * distance_to_light)
    else 1
  let target_function :=
    env.luminance (ColorRGB.smul (bsdf_color * env.emission sample.emissive_triangle_index)
      (cosine_term * geometry_term))
  if target_function = 0 then (0, false)
  else
    let visible := !evaluate_shadow_ray env shading_point sample_direction distance_to_light
    (target_function * boolToQ visible, true)

/-! ## Spatial reuse kernel slice
Embedding of the per-neighbor resampling step and the post-loop
normalization accumulation of `ReSTIR_DI_SpatialReuse`
(`src/Device/kernels/ReSTIR/ReSTIR_DI_SpatialReuse.h`). The surrounding
per-pixel plumbing (neighbor pixel selection, G-buffer reads, the target
function / jacobian / MIS-weight values a neighbor supplies) enters as
explicit arguments. -/

/-- One iteration of the spatial-reuse resampling loop body for an
in-viewport neighbor (kernel lines 225–296): if the neighbor reservoir has
`UCW == 0.0f` its `M` is added and it is skipped, else `combine_with` runs
with the supplied target function at center, jacobian and MIS weight.
The `Bool` is `true` when `combine_with` accepted the neighbor's sample
(which is when the kernel records it as `selected_neighbor`). -/
def spatial_process_neighbor (new_reservoir neighbor_reservoir : ReSTIRDIReservoir)
    (mis_weight target_function_at_center jacobian_determinant u : FNum) :
    ReSTIRDIReservoir × Bool :=
  if FNum.beq neighbor_reservoir.UCW (FNum.fin 0) then
    ({ new_reservoir with M := new_reservoir.M + neighbor_reservoir.M }, false)
  else
    ReSTIRDIReservoir.combine_with new_reservoir neighbor_reservoir mis_weight
      target_function_at_center jacobian_determinant u

/-- Data one neighbor contributes to the post-loop normalization
(kernel lines 306–353): whether `get_neighbor_pixel_index` kept it in the
viewport, the target function of the finally-selected sample evaluated at
that neighbor, and the neighbor reservoir's confidence count `M`. -/
structure ZNeighborInfo where
  in_viewport : Bool
  target_function_at_neighbor : FNum
  M : Int

/-- The `1/Z` normalization accumulator of the kernel (`#else` branch,
lines 301–353): starting from `Z = 0.0f` and guarded by
`if (new_reservoir.weight_sum > 0.0f)`, each in-viewport neighbor with
`target_function_at_neighbor > 0.0f` contributes `Z += neighbor_reservoir.M`. -/
def spatial_reuse_Z (weight_sum : FNum) (neighbors : List ZNeighborInfo) : FNum :=
  if FNum.blt (FNum.fin 0) weight_sum then
    neighbors.foldl
      (fun Z nb =>
        if nb.in_viewport && FNum.blt (FNum.fin 0) nb.target_function_at_neighbor then
          Z + FNum.fin nb.M
        else Z)
      (FNum.fin 0)
  else FNum.fin 0

/-! ## Principled BSDF lobe bookkeeping
Shallow embedding of the mixture-weight / CDF / layering logic of
`src/Device/includes/BSDFs/Principled.h`. The per-lobe microfacet models,
Fresnel terms and the sheen LTC table are collaborators outside the claims
(and partly outside `src/`): they enter as oracle values. The mixture
weights, the `outside_object` handling, the CDF build and the
layer-cascade control flow are embedded from the source. -/

/-- The material parameters `principled_bsdf_eval` / `principled_bsdf_sample`
read to build the lobe weights and the layer throughput
(subset of `SimplifiedRendererMaterial`). -/
structure SimplifiedRendererMaterial where
  coat : ℚ
  sheen : ℚ
  metallic : ℚ
  specular : ℚ
  specular_transmission : ℚ
  specular_tint : ℚ
  coat_color : ColorRGB
  specular_color : ColorRGB
deriving DecidableEq, Repr

/-- The five raw lobe weights, in layer order. -/
structure LobeWeights where
  coat_weight : ℚ
  sheen_weight : ℚ
  metal_weight : ℚ
  specular_weight : ℚ
  diffuse_weight : ℚ
deriving DecidableEq, Repr

/-- The raw lobe-weight formulas shared by `principled_bsdf_eval`
(lines 445–453) and `principled_bsdf_sample` (lines 522–527), as functions
of the `outside_object` flag each function has computed. -/
def principled_lobe_weights (material : SimplifiedRendererMaterial)
    (outside_object : Bool) : LobeWeights :=
  { coat_weight := material.coat * boolToQ outside_object
    sheen_weight := material.sheen * boolToQ outside_object
    metal_weight := material.metallic * boolToQ outside_object
    specular_weight := (1 - material.metallic) * (1 - material.specular_transmission)
      * material.specular * boolToQ outside_object
    diffuse_weight := (1 - material.metallic) * (1 - material.specular_transmission)
      * boolToQ outside_object }

/-- `outside_object` as `principled_bsdf_eval` computes it (line 418):
`dot(view_direction, shading_normal) > 0`. -/
def principled_eval_outside_object (view_direction shading_normal : Vec3) : Bool :=
  Vec3.dot view_direction shading_normal > 0

/-- The raw lobe weights of `principled_bsdf_eval` (lines 414–453). -/
def principled_bsdf_eval_weights (material : SimplifiedRendererMaterial)
    (view_direction shading_normal : Vec3) : LobeWeights :=
  principled_lobe_weights material (principled_eval_outside_object view_direction shading_normal)

/-- `outside_object` as `principled_bsdf_sample` uses it (lines 497–519):
the hemisphere test, except that when the glass lobe has zero weight
(`glass_weight = (1-metallic) * specular_transmission == 0`) and the view
direction is below the shading normal, the flag is forced to `true`
(and the normal is reflected about the geometric normal — dark-fringe
mitigation). -/
def principled_sample_outside_object (material : SimplifiedRendererMaterial)
    (view_direction shading_normal : Vec3) : Bool :=
  let glass_weight := (1 - material.metallic) * material.specular_transmission
  let outside_object := Vec3.dot view_direction shading_normal > 0
  if glass_weight = 0 && !outside_object then true else outside_object

/-- The raw lobe weights of `principled_bsdf_sample` (lines 491–527),
before normalization. -/
def principled_bsdf_sample_weights (material : SimplifiedRendererMaterial)
    (view_direction shading_normal : Vec3) : LobeWeights :=
  principled_lobe_weights material
    (principled_sample_outside_object material view_direction shading_normal)

/-- The CDF array `cdf[0..4]` built by `principled_bsdf_sample`
(lines 530–543) from the normalized lobe weights:
`normalize_factor = 1.0f / (sum of raw weights)`, each weight is scaled by
it, and the CDF is the running sum. -/
def principled_bsdf_sample_cdf (w : LobeWeights) : ℚ × ℚ × ℚ × ℚ × ℚ :=
  let normalize_factor := 1 / (w.coat_weight + w.sheen_weight + w.metal_weight
    + w.specular_weight + w.diffuse_weight)
  let coat_weight := w.coat_weight * normalize_factor
  let sheen_weight := w.sheen_weight * normalize_factor
  let metal_weight := w.metal_weight * normalize_factor
  let specular_weight := w.specular_weight * normalize_factor
  let diffuse_weight := w.diffuse_weight * normalize_factor
  let cdf0 := coat_weight
  let cdf1 := cdf0 + sheen_weight
  let cdf2 := cdf1 + metal_weight
  let cdf3 := cdf2 + specular_weight
  let cdf4 := cdf3 + diffuse_weight
  (cdf0, cdf1, cdf2, cdf3, cdf4)

/-- The last CDF entry `cdf[4]`. -/
def principled_bsdf_sample_cdf4 (w : LobeWeights) : ℚ :=
  (principled_bsdf_sample_cdf w).2.2.2.2

/-- Oracle inputs to one layer of the `principled_bsdf_eval` cascade:
the layer's lobe evaluation `(value, pdf)` at the fixed directions and the
Fresnel reflectance used for the throughput attenuation of that layer. -/
structure LayerOracle where
  value : ColorRGB
  pdf : ℚ
  fresnel : ColorRGB
deriving Repr

/-- Evaluation state threaded through the layers: accumulated color,
accumulated PDF and the remaining `layers_throughput`. -/
structure EvalState where
  final_color : ColorRGB
  pdf : ℚ
  layers_throughput : ColorRGB
deriving DecidableEq, Repr

/-- `internal_eval_coat_layer` (Principled.h lines 296–324). -/
def internal_eval_coat_layer (material : SimplifiedRendererMaterial)
    (oracle : LayerOracle) (coat_weight coat_proba : ℚ) (st : EvalState) : EvalState :=
  if coat_weight > 0 then
    let contribution := ColorRGB.smul oracle.value coat_weight * st.layers_throughput
    let transmitted_light := (ColorRGB.white.sub oracle.fresnel) * material.coat_color
    let transmitted_light :=
      (ColorRGB.smul ColorRGB.white (1 - material.coat)).add
        (ColorRGB.smul transmitted_light material.coat)
    { final_color := st.final_color + contribution
      pdf := st.pdf + oracle.pdf * coat_proba
      layers_throughput := st.layers_throughput * transmitted_light }
  else st

/-- `internal_eval_sheen_layer` (lines 326–350). -/
def internal_eval_sheen_layer (material : SimplifiedRendererMaterial)
    (oracle : LayerOracle) (sheen_weight sheen_proba : ℚ) (st : EvalState) : EvalState :=
  if sheen_weight > 0 then
    let contribution := ColorRGB.smul oracle.value sheen_weight * st.layers_throughput
    { final_color := st.final_color + contribution
      pdf := st.pdf + oracle.pdf * sheen_proba
      layers_throughput :=
        st.layers_throughput * (ColorRGB.white.sub (ColorRGB.smul oracle.fresnel material.sheen)) }
  else st

/-- `internal_eval_metal_layer` (lines 352–370): no throughput update. -/
def internal_eval_metal_layer (oracle : LayerOracle) (metal_weight metal_proba : ℚ)
    (st : EvalState) : EvalState :=
  if metal_weight > 0 then
    { final_color := st.final_color + ColorRGB.smul oracle.value metal_weight * st.layers_throughput
      pdf := st.pdf + oracle.pdf * metal_proba
      layers_throughput := st.layers_throughput }
  else st

/-- `internal_eval_specular_layer` (lines 372–391). -/
def internal_eval_specular_layer (material : SimplifiedRendererMaterial)
    (oracle : LayerOracle) (specular_weight specular_proba : ℚ) (st : EvalState) : EvalState :=
  if specular_weight > 0 then
    let tint := (ColorRGB.smul ColorRGB.white (1 - material.specular_tint)).add
      (ColorRGB.smul material.specular_color material.specular_tint)
    let contribution := ColorRGB.smul (oracle.value * tint) specular_weight * st.layers_throughput
    { final_color := st.final_color + contribution
      pdf := st.pdf + oracle.pdf * specular_proba
      layers_throughput :=
        st.layers_throughput * (ColorRGB.white.sub (ColorRGB.smul oracle.fresnel material.specular)) }
  else st

/-- `internal_eval_diffuse_layer` (lines 393–408): no throughput update. -/
def internal_eval_diffuse_layer (oracle : LayerOracle) (diffuse_weight diffuse_proba : ℚ)
    (st : EvalState) : EvalState :=
  if diffuse_weight > 0 then
    { final_color := st.final_color + ColorRGB.smul oracle.value diffuse_weight * st.layers_throughput
      pdf := st.pdf + oracle.pdf * diffuse_proba
      layers_throughput := st.layers_throughput }
  else st

/-- `principled_bsdf_eval` (lines 410–489): computes `outside_object`, the
five lobe weights and their normalized sampling probabilities, then runs
the coat → sheen → metal → specular → diffuse cascade starting from
`pdf = 0`, `layers_throughput = white`, `final_color = black`. The glass
lobe is commented out in the source and contributes nothing. The per-lobe
`(value, pdf, fresnel)` oracles abstract the microfacet models. -/
def principled_bsdf_eval (material : SimplifiedRendererMaterial)
    (view_direction shading_normal : Vec3)
    (coat sheen metal specular diffuse : LayerOracle) : EvalState :=
  let outside_object := principled_eval_outside_object view_direction shading_normal
  let w := principled_lobe_weights material outside_object
  let probability_normalize_factor := w.coat_weight + w.sheen_weight + w.metal_weight
    + w.specular_weight + w.diffuse_weight
  let coat_proba_norm := w.coat_weight / probability_normalize_factor
  let sheen_proba_norm := w.sheen_weight / probability_normalize_factor
  let metal_proba_norm := w.metal_weight / probability_normalize_factor
  let specular_proba_norm := w.specular_weight / probability_normalize_factor
  let diffuse_proba_norm := w.diffuse_weight / probability_normalize_factor
  let st0 : EvalState :=
    { final_color := ColorRGB.black, pdf := 0, layers_throughput := ColorRGB.white }
  let st1 := internal_eval_coat_layer material coat w.coat_weight coat_proba_norm st0
  let st2 := internal_eval_sheen_layer material sheen w.sheen_weight sheen_proba_norm st1
  let st3 := internal_eval_metal_layer metal w.metal_weight metal_proba_norm st2
  let st4 := internal_eval_specular_layer material specular w.specular_weight specular_proba_norm st3
  internal_eval_diffuse_layer diffuse w.diffuse_weight diffuse_proba_norm st4

/-- The relative-IOR nudge shared by `principled_glass_eval` (lines 155–156)
and `principled_glass_sample` (lines 255–256):
`if (abs(relative_eta - 1.0f) < 1.0e-5f) relative_eta = 1.0f + 1.0e-5f;`. -/
def glass_nudge_relative_eta (relative_eta : ℚ) : ℚ :=
  if |relative_eta - 1| < 1/100000 then 1 + 1/100000 else relative_eta

/-- Relative IOR as `principled_glass_eval` computes it (lines 131–156):
`relative_eta = eta_t / eta_i`, then nudged. -/
def principled_glass_eval_relative_eta (eta_t eta_i : ℚ) : ℚ :=
  glass_nudge_relative_eta (eta_t / eta_i)

/-- Relative IOR as `principled_glass_sample` computes it (lines 250–256). -/
def principled_glass_sample_relative_eta (eta_t eta_i : ℚ) : ℚ :=
  glass_nudge_relative_eta (eta_t / eta_i)

/-- The generalized refraction half-vector of `principled_glass_eval`
(line 165, before normalization):
`local_to_light_direction * relative_eta + local_view_direction`. -/
def glass_refraction_half_vector (local_to_light_direction : Vec3) (relative_eta : ℚ)
    (local_view_direction : Vec3) : Vec3 :=
  (Vec3.smul relative_eta local_to_light_direction).add local_view_direction

/-! ## Theorems -/

/-- C1: for every reservoir state, candidate sample, weight `w` and drawn
uniform number `u`, `add_one_candidate(sample, w, rng)` increases `M` by
exactly 1, increases `weight_sum` by exactly `w`, leaves `UCW` unchanged,
and replaces the stored sample with the new sample exactly when the drawn
uniform number is below `w` divided by the updated `weight_sum`. -/
theorem add_one_candidate_spec (r : ReSTIRDIReservoir) (s : ReSTIRDISample)
    (w u : FNum) (h : s ≠ r.sample) :
    (r.add_one_candidate s w u).M = r.M + 1 ∧
    (r.add_one_candidate s w u).weight_sum = r.weight_sum + w ∧
    (r.add_one_candidate s w u).UCW = r.UCW ∧
    ((r.add_one_candidate s w u).sample
      = if FNum.blt u (w / (r.weight_sum + w)) then s else r.sample) ∧
    ((r.add_one_candidate s w u).sample = s ↔ FNum.blt u (w / (r.weight_sum + w)) = true) := by
  unfold ReSTIRDIReservoir.add_one_candidate
  by_cases hc : FNum.blt u (w / (r.weight_sum + w)) = true <;>
    simp [hc, h, Ne.symm h]

/-- Witness for C1 at a concrete input: an empty reservoir receiving a
fresh sample with weight 1 and `u = 0` stores it and reaches `M = 1`. -/
theorem add_one_candidate_spec_witness :
    ((⟨0, Vec3.zero, FNum.fin 1⟩ : ReSTIRDISample) ≠ ({} : ReSTIRDIReservoir).sample) ∧
    (({} : ReSTIRDIReservoir).add_one_candidate ⟨0, Vec3.zero, FNum.fin 1⟩
      (FNum.fin 1) (FNum.fin 0)).M = ({} : ReSTIRDIReservoir).M + 1 ∧
    (({} : ReSTIRDIReservoir).add_one_candidate ⟨0, Vec3.zero, FNum.fin 1⟩
      (FNum.fin 1) (FNum.fin 0)).sample = ⟨0, Vec3.zero, FNum.fin 1⟩ := by
  have h := add_one_candidate_spec {} ⟨0, Vec3.zero, FNum.fin 1⟩
    (FNum.fin 1) (FNum.fin 0) (by simp)
  refine ⟨by simp, h.1, ?_⟩
  rw [h.2.2.2.1]
  norm_num

/-- C2: `combine_with` computes
`resampling_weight = mis_weight * target_function * other.UCW * jacobian`,
adds `other.M` to `M` and `resampling_weight` to `weight_sum`, leaves `UCW`
unchanged, adopts `other.sample` with its cached target function overwritten
by `target_function` exactly when the drawn uniform number is below
`resampling_weight` divided by the updated `weight_sum`, and returns `true`
exactly when the incoming sample was adopted. -/
theorem combine_with_spec (self other : ReSTIRDIReservoir) (mis tf jac u : FNum) :
    (self.combine_with other mis tf jac u).1.M = self.M + other.M ∧
    (self.combine_with other mis tf jac u).1.weight_sum
      = self.weight_sum + mis * tf * other.UCW * jac ∧
    (self.combine_with other mis tf jac u).1.UCW = self.UCW ∧
    ((self.combine_with other mis tf jac u).1.sample
      = if FNum.blt u ((mis * tf * other.UCW * jac)
            / (self.weight_sum + mis * tf * other.UCW * jac)) then
          { other.sample with target_function := tf }
        else self.sample) ∧
    ((self.combine_with other mis tf jac u).2 = true
      ↔ FNum.blt u ((mis * tf * other.UCW * jac)
            / (self.weight_sum + mis * tf * other.UCW * jac)) = true) := by
  unfold ReSTIRDIReservoir.combine_with
  by_cases hc : FNum.blt u ((mis * tf * other.UCW * jac)
      / (self.weight_sum + mis * tf * other.UCW * jac)) = true <;>
    simp [hc]

/-- C10: `end()` and `end_with_normalization` write only the `UCW` field:
`M`, `weight_sum` and the stored sample (with its cached target function)
are unchanged. -/
theorem end_writes_only_UCW (r : ReSTIRDIReservoir) (num den : FNum) :
    (ReSTIRDIReservoir.«end» r).M = r.M ∧
    (ReSTIRDIReservoir.«end» r).weight_sum = r.weight_sum ∧
    (ReSTIRDIReservoir.«end» r).sample = r.sample ∧
    (r.end_with_normalization num den).M = r.M ∧
    (r.end_with_normalization num den).weight_sum = r.weight_sum ∧
    (r.end_with_normalization num den).sample = r.sample := by
  unfold ReSTIRDIReservoir.«end» ReSTIRDIReservoir.end_with_normalization
  constructor
  · split <;> rfl
  constructor
  · split <;> rfl
  constructor
  · split <;> rfl
  constructor
  · split <;> rfl
  constructor
  · split <;> rfl
  · split <;> rfl

/-- C3 counterexample: a fresh reservoir fed a single candidate whose
cached target function is 0 with weight 1.0 (uniform draw 0) reaches
`weight_sum = 1 ≠ 0`, so `end()` takes the unguarded branch and computes
`1.0f / 0.0f * 1.0f = inf`: the claimed `UCW == 0` is false and the
divide-by-zero is not guarded. -/
theorem end_zero_target_function_counterexample :
    (ReSTIRDIReservoir.«end» (ReSTIRDIReservoir.add_one_candidate {}
        ⟨0, Vec3.zero, FNum.fin 0⟩ (FNum.fin 1) (FNum.fin 0))).UCW = FNum.inf ∧
    (ReSTIRDIReservoir.«end» (ReSTIRDIReservoir.add_one_candidate {}
        ⟨0, Vec3.zero, FNum.fin 0⟩ (FNum.fin 1) (FNum.fin 0))).UCW ≠ FNum.fin 0 := by
  have hstep : ReSTIRDIReservoir.add_one_candidate {}
      ⟨0, Vec3.zero, FNum.fin 0⟩ (FNum.fin 1) (FNum.fin 0)
      = { M := 1, weight_sum := FNum.fin 1, UCW := FNum.fin 0,
          sample := ⟨0, Vec3.zero, FNum.fin 0⟩ } := by
    unfold ReSTIRDIReservoir.add_one_candidate
    norm_num
  rw [hstep]
  unfold ReSTIRDIReservoir.«end»
  norm_num
  decide

/-- C3 (amended): `end()` guards only `weight_sum == 0` (then `UCW = 0`) and
otherwise sets `UCW = 1/sample.target_function * weight_sum` with the
division by a zero target function unguarded; a fresh reservoir fed a
single candidate with weight 1.0 (uniform draw in `[0,1)`) therefore ends
with `UCW = 1/target_function` when `target_function > 0`, and with
`UCW = inf` (not 0) when `target_function = 0`; `end_with_normalization`
additionally scales by `numerator/denominator` and yields `UCW = 0`
whenever `weight_sum`, the numerator or the denominator is 0. -/
theorem end_single_candidate_spec (r : ReSTIRDIReservoir) (s : ReSTIRDISample)
    (uq q : ℚ) (num den : FNum)
    (_hu0 : 0 ≤ uq) (hu1 : uq < 1) (hq : s.target_function = FNum.fin q) :
    (r.weight_sum = FNum.fin 0 → (ReSTIRDIReservoir.«end» r).UCW = FNum.fin 0) ∧
    (FNum.beq r.weight_sum (FNum.fin 0) = false →
      (ReSTIRDIReservoir.«end» r).UCW
        = FNum.fin 1 / r.sample.target_function * r.weight_sum) ∧
    (0 < q →
      (ReSTIRDIReservoir.«end» (ReSTIRDIReservoir.add_one_candidate {} s
        (FNum.fin 1) (FNum.fin uq))).UCW = FNum.fin (1 / q)) ∧
    (q = 0 →
      (ReSTIRDIReservoir.«end» (ReSTIRDIReservoir.add_one_candidate {} s
        (FNum.fin 1) (FNum.fin uq))).UCW = FNum.inf) ∧
    (FNum.beq r.weight_sum (FNum.fin 0) = false →
      FNum.beq den (FNum.fin 0) = false →
      FNum.beq num (FNum.fin 0) = false →
      (r.end_with_normalization num den).UCW
        = FNum.fin 1 / r.sample.target_function * r.weight_sum * num / den) ∧
    ((r.weight_sum = FNum.fin 0 ∨ den = FNum.fin 0 ∨ num = FNum.fin 0) →
      (r.end_with_normalization num den).UCW = FNum.fin 0) := by
  have hstep : ReSTIRDIReservoir.add_one_candidate {} s (FNum.fin 1) (FNum.fin uq)
      = { M := 1, weight_sum := FNum.fin 1, UCW := FNum.fin 0, sample := s } := by
    unfold ReSTIRDIReservoir.add_one_candidate
    norm_num [hu1]
  refine ⟨?_, ?_, ?_, ?_, ?_, ?_⟩
  · intro h
    unfold ReSTIRDIReservoir.«end»
    rw [h]
    norm_num
  · intro h
    unfold ReSTIRDIReservoir.«end»
    simp [h]
  · intro hqpos
    rw [hstep]
    unfold ReSTIRDIReservoir.«end»
    norm_num [hq, hqpos.ne']
  · intro hq0
    rw [hstep]
    unfold ReSTIRDIReservoir.«end»
    norm_num [hq, hq0]
  · intro h1 h2 h3
    unfold ReSTIRDIReservoir.end_with_normalization
    simp [h1, h2, h3]
  · intro h
    unfold ReSTIRDIReservoir.end_with_normalization
    rcases h with h | h | h <;> rw [h] <;> simp

/-- Witness for C3 (amended) at a concrete input: one candidate with target
function 2 and weight 1, uniform draw 1/2, ends with `UCW = 1/2`. -/
theorem end_single_candidate_spec_witness :
    ((0:ℚ) ≤ 1/2) ∧ ((1:ℚ)/2 < 1) ∧
    (ReSTIRDIReservoir.«end» (ReSTIRDIReservoir.add_one_candidate {}
      ⟨0, Vec3.zero, FNum.fin 2⟩ (FNum.fin 1) (FNum.fin (1/2)))).UCW = FNum.fin (1/2) ∧
    ((⟨1, FNum.fin 2, FNum.fin 0, ⟨-1, Vec3.zero, FNum.fin 4⟩⟩ :
        ReSTIRDIReservoir).end_with_normalization (FNum.fin 3) (FNum.fin 6)).UCW
      = FNum.fin (1/4) ∧
    ((⟨1, FNum.fin 2, FNum.fin 0, ⟨-1, Vec3.zero, FNum.fin 4⟩⟩ :
        ReSTIRDIReservoir).end_with_normalization (FNum.fin 0) (FNum.fin 6)).UCW
      = FNum.fin 0 := by
  refine ⟨by norm_num, by norm_num, ?_, ?_, ?_⟩
  · have h := end_single_candidate_spec {} ⟨0, Vec3.zero, FNum.fin 2⟩ (1/2) 2
      (FNum.fin 3) (FNum.fin 6) (by norm_num) (by norm_num) rfl
    have h2 := h.2.2.1 (by norm_num)
    simpa using h2
  · have h := end_single_candidate_spec
      ⟨1, FNum.fin 2, FNum.fin 0, ⟨-1, Vec3.zero, FNum.fin 4⟩⟩
      ⟨0, Vec3.zero, FNum.fin 2⟩ (1/2) 2 (FNum.fin 3) (FNum.fin 6)
      (by norm_num) (by norm_num) rfl
    have h2 := h.2.2.2.2.1 (by norm_num) (by norm_num) (by norm_num)
    rw [h2]
    norm_num
  · have h := end_single_candidate_spec
      ⟨1, FNum.fin 2, FNum.fin 0, ⟨-1, Vec3.zero, FNum.fin 4⟩⟩
      ⟨0, Vec3.zero, FNum.fin 2⟩ (1/2) 2 (FNum.fin 0) (FNum.fin 6)
      (by norm_num) (by norm_num) rfl
    exact h.2.2.2.2.2 (Or.inr (Or.inr rfl))

/-- C9: during the spatial reuse pass, an in-viewport neighbor whose
reservoir has `UCW == 0` is skipped: the combined reservoir's `weight_sum`,
`UCW` and stored sample are untouched (so the neighbor can never become the
selected sample and the accepted flag is `false`), but the neighbor's
confidence count `M` is still added to the combined reservoir's `M`. -/
theorem spatial_skip_zero_ucw_neighbor (cur nb : ReSTIRDIReservoir)
    (mis tf jac u : FNum) (h : nb.UCW = FNum.fin 0) :
    (spatial_process_neighbor cur nb mis tf jac u).1.M = cur.M + nb.M ∧
    (spatial_process_neighbor cur nb mis tf jac u).1.weight_sum = cur.weight_sum ∧
    (spatial_process_neighbor cur nb mis tf jac u).1.UCW = cur.UCW ∧
    (spatial_process_neighbor cur nb mis tf jac u).1.sample = cur.sample ∧
    (spatial_process_neighbor cur nb mis tf jac u).2 = false := by
  unfold spatial_process_neighbor
  rw [h]
  norm_num

/-- Witness for C9 at a concrete input: a zero-`UCW` neighbor with `M = 5`
only bumps the center reservoir's `M` from 0 to 5. -/
theorem spatial_skip_zero_ucw_neighbor_witness :
    ((⟨5, FNum.fin 3, FNum.fin 0, ⟨7, Vec3.zero, FNum.fin 2⟩⟩ : ReSTIRDIReservoir).UCW
        = FNum.fin 0) ∧
    (spatial_process_neighbor {} ⟨5, FNum.fin 3, FNum.fin 0, ⟨7, Vec3.zero, FNum.fin 2⟩⟩
      (FNum.fin 1) (FNum.fin 1) (FNum.fin 1) (FNum.fin 0)).1.M = ({} : ReSTIRDIReservoir).M + 5 ∧
    (spatial_process_neighbor {} ⟨5, FNum.fin 3, FNum.fin 0, ⟨7, Vec3.zero, FNum.fin 2⟩⟩
      (FNum.fin 1) (FNum.fin 1) (FNum.fin 1) (FNum.fin 0)).1.weight_sum
        = ({} : ReSTIRDIReservoir).weight_sum ∧
    (spatial_process_neighbor {} ⟨5, FNum.fin 3, FNum.fin 0, ⟨7, Vec3.zero, FNum.fin 2⟩⟩
      (FNum.fin 1) (FNum.fin 1) (FNum.fin 1) (FNum.fin 0)).2 = false := by
  have h := spatial_skip_zero_ucw_neighbor {}
    ⟨5, FNum.fin 3, FNum.fin 0, ⟨7, Vec3.zero, FNum.fin 2⟩⟩
    (FNum.fin 1) (FNum.fin 1) (FNum.fin 1) (FNum.fin 0) rfl
  exact ⟨rfl, h.1, h.2.1, h.2.2.2.2⟩

/-- A neighbor qualifies for the `Z` normalization count exactly when it is
in the viewport and the target function of the selected sample at that
neighbor is strictly positive (kernel lines 311–335). -/
def ZNeighborInfo.qualifies (nb : ZNeighborInfo) : Bool :=
  nb.in_viewport && FNum.blt (FNum.fin 0) nb.target_function_at_neighbor

/-- The `Z` fold adds exactly the confidence counts of qualifying
neighbors. -/
theorem spatial_reuse_Z_fold (ns : List ZNeighborInfo) (a : ℚ) :
    ns.foldl
      (fun Z nb => if nb.qualifies then Z + FNum.fin nb.M else Z)
      (FNum.fin a)
    = FNum.fin (a + (((ns.filter ZNeighborInfo.qualifies).map fun nb => (nb.M : ℚ)).sum)) := by
  induction ns generalizing a with
  | nil => simp
  | cons hd tl ih =>
    rcases Bool.eq_false_or_eq_true hd.qualifies with hq | hq
    · simp [List.foldl_cons, hq, ih, List.filter_cons]
      ring
    · simp [List.foldl_cons, hq, ih, List.filter_cons]

/-- C7 counterexample: one in-viewport neighbor with confidence `M = 2` and
positive target function at the selected sample makes `Z = 2`, while the
count of such neighbors is 1: `Z` is the sum of the neighbors' `M`, not
their count. -/
theorem spatial_reuse_Z_counterexample :
    spatial_reuse_Z (FNum.fin 1) [⟨true, FNum.fin 1, 2⟩] = FNum.fin 2 ∧
    (List.countP ZNeighborInfo.qualifies [⟨true, FNum.fin 1, 2⟩] = 1) ∧
    FNum.fin 2 ≠ FNum.fin 1 := by
  refine ⟨?_, ?_, ?_⟩
  · unfold spatial_reuse_Z
    norm_num [ZNeighborInfo.qualifies]
  · norm_num [List.countP, List.countP.go, ZNeighborInfo.qualifies]
  · intro h
    have : (2 : ℚ) = 1 := by injection h
    norm_num at this

/-- C7 (amended): under the `1/Z` bias-correction policy of the spatial
reuse pass, when the combined reservoir's `weight_sum` is positive the
normalization denominator `Z` equals the SUM of the confidence counts `M`
of the resampled in-viewport neighbors whose target function evaluated at
the finally-selected sample is strictly positive (`Z = 0` when `weight_sum`
is not positive), and the reservoir is finalized as
`1/target_function * weight_sum` scaled by `1/Z`, with `UCW = 0` when `Z`
is 0 (or when `weight_sum == 0`). -/
theorem spatial_reuse_one_over_Z_spec (ws : FNum) (ns : List ZNeighborInfo)
    (r : ReSTIRDIReservoir) (z : ℚ) :
    (FNum.blt (FNum.fin 0) ws = true →
      spatial_reuse_Z ws ns
        = FNum.fin (((ns.filter ZNeighborInfo.qualifies).map fun nb => (nb.M : ℚ)).sum)) ∧
    (FNum.blt (FNum.fin 0) ws = false → spatial_reuse_Z ws ns = FNum.fin 0) ∧
    ((r.end_with_normalization (FNum.fin 1) (FNum.fin z)).UCW
      = if FNum.beq r.weight_sum (FNum.fin 0) = true ∨ z = 0 then FNum.fin 0
        else FNum.fin 1 / r.sample.target_function * r.weight_sum
          * FNum.fin 1 / FNum.fin z) := by
  refine ⟨?_, ?_, ?_⟩
  · intro h
    unfold spatial_reuse_Z
    rw [if_pos h]
    have hbody : (fun (Z : FNum) (nb : ZNeighborInfo) =>
        if nb.in_viewport && FNum.blt (FNum.fin 0) nb.target_function_at_neighbor then
          Z + FNum.fin nb.M
        else Z)
      = fun (Z : FNum) (nb : ZNeighborInfo) =>
          if nb.qualifies then Z + FNum.fin nb.M else Z := rfl
    rw [hbody, spatial_reuse_Z_fold]
    norm_num
  · intro h
    unfold spatial_reuse_Z
    rw [if_neg]
    simp [h]
  · unfold ReSTIRDIReservoir.end_with_normalization
    by_cases hws : FNum.beq r.weight_sum (FNum.fin 0) = true
    · simp [hws]
    · by_cases hz : z = 0
      · simp [hws, hz]
      · simp [hws, hz]

/-- The target-function formula as claim C4 / spec §4.2 state it:
`luminance(BSDF_eval(view, normal, to_light) * light_emission
  * max(0, cos(normal, to_light)) * geometry_term)` where `geometry_term`
is `cos_at_light / distance²` when enabled by configuration and 1
otherwise. (Spec-side definition, to be compared with the kernel
embedding.) -/
def spec_target_function (env : TFEnv) (s : ReSTIRDISample) (v p n : Vec3) : ℚ :=
  let diff := Vec3.sub s.point_on_light_source p
  let d := env.length diff
  let dir := Vec3.divScalar diff d
  let geo :=
    if env.geometry_term_in_target_function then
      |Vec3.dot dir (env.light_normal s.emissive_triangle_index)| / (d * d)
    else 1
  env.luminance (ColorRGB.smul
    (env.bsdf_eval v n dir * env.emission s.emissive_triangle_index)
    (max 0 (Vec3.dot n dir) * geo))

/-- The normalized direction from the shading point to the light sample
(spec-side helper for stating the occlusion-ray arguments). -/
def spec_to_light_direction (env : TFEnv) (s : ReSTIRDISample) (p : Vec3) : Vec3 :=
  Vec3.divScalar (Vec3.sub s.point_on_light_source p)
    (env.length (Vec3.sub s.point_on_light_source p))

/-- The distance from the shading point to the light sample (spec-side
helper). -/
def spec_distance_to_light (env : TFEnv) (s : ReSTIRDISample) (p : Vec3) : ℚ :=
  env.length (Vec3.sub s.point_on_light_source p)

/-- C4: the target function evaluator returns
`luminance(BSDF_eval * light_emission * max(0, cos) * geometry_term)`
(with `geometry_term = cos_at_light / distance²` exactly when enabled,
else 1); when this value is 0 the visibility-enabled variant returns 0
without tracing any occlusion ray, and otherwise it equals the
visibility-free value multiplied by `1 - occluded` for an occlusion ray
whose maximum distance is `distance_to_light - 1e-4`, i.e. just short of
the distance to the light. -/
theorem evaluate_target_function_spec (env : TFEnv) (s : ReSTIRDISample) (v p n : Vec3) :
    ReSTIR_DI_evaluate_target_function_novis env s v p n
      = spec_target_function env s v p n ∧
    ReSTIR_DI_evaluate_target_function_vis env s v p n
      = (if spec_target_function env s v p n = 0 then ((0 : ℚ), false)
         else (spec_target_function env s v p n
             * boolToQ (!env.occluded p (spec_to_light_direction env s p)
                 (spec_distance_to_light env s p - 1/10000)), true)) := by
  unfold ReSTIR_DI_evaluate_target_function_novis ReSTIR_DI_evaluate_target_function_vis
    spec_target_function spec_to_light_direction spec_distance_to_light evaluate_shadow_ray
  constructor
  · dsimp only
    split <;>
    · split
      next h => exact h.symm
      next _h => rfl
  · rfl

/-- C6: for every material and geometry whose raw lobe weights
`coat + sheen + metal + specular + diffuse` sum to a strictly positive
number, the final entry `cdf[4]` of the CDF built by
`principled_bsdf_sample` equals 1 (exactly, hence within any epsilon). -/
theorem principled_cdf_last_entry_one (material : SimplifiedRendererMaterial) (v n : Vec3)
    (h : 0 < (principled_bsdf_sample_weights material v n).coat_weight
        + (principled_bsdf_sample_weights material v n).sheen_weight
        + (principled_bsdf_sample_weights material v n).metal_weight
        + (principled_bsdf_sample_weights material v n).specular_weight
        + (principled_bsdf_sample_weights material v n).diffuse_weight) :
    principled_bsdf_sample_cdf4 (principled_bsdf_sample_weights material v n) = 1 := by
  have hne := ne_of_gt h
  unfold principled_bsdf_sample_cdf4 principled_bsdf_sample_cdf
  dsimp only
  field_simp

/-- Witness for C6 at a concrete input: a material with
`coat = 1/2, sheen = 1/4, metallic = 1/5, specular = 1/3,
specular_transmission = 0` seen from outside has positive weight sum and
`cdf[4] = 1`. -/
theorem principled_cdf_last_entry_one_witness :
    (0 < (principled_bsdf_sample_weights
        ⟨1/2, 1/4, 1/5, 1/3, 0, 0, ColorRGB.white, ColorRGB.white⟩
        ⟨0, 0, 1⟩ ⟨0, 0, 1⟩).coat_weight
      + (principled_bsdf_sample_weights
        ⟨1/2, 1/4, 1/5, 1/3, 0, 0, ColorRGB.white, ColorRGB.white⟩
        ⟨0, 0, 1⟩ ⟨0, 0, 1⟩).sheen_weight
      + (principled_bsdf_sample_weights
        ⟨1/2, 1/4, 1/5, 1/3, 0, 0, ColorRGB.white, ColorRGB.white⟩
        ⟨0, 0, 1⟩ ⟨0, 0, 1⟩).metal_weight
      + (principled_bsdf_sample_weights
        ⟨1/2, 1/4, 1/5, 1/3, 0, 0, ColorRGB.white, ColorRGB.white⟩
        ⟨0, 0, 1⟩ ⟨0, 0, 1⟩).specular_weight
      + (principled_bsdf_sample_weights
        ⟨1/2, 1/4, 1/5, 1/3, 0, 0, ColorRGB.white, ColorRGB.white⟩
        ⟨0, 0, 1⟩ ⟨0, 0, 1⟩).diffuse_weight) ∧
    principled_bsdf_sample_cdf4 (principled_bsdf_sample_weights
        ⟨1/2, 1/4, 1/5, 1/3, 0, 0, ColorRGB.white, ColorRGB.white⟩
        ⟨0, 0, 1⟩ ⟨0, 0, 1⟩) = 1 := by
  constructor
  · norm_num [principled_bsdf_sample_weights, principled_lobe_weights,
      principled_sample_outside_object, Vec3.dot, boolToQ]
  · apply principled_cdf_last_entry_one
    norm_num [principled_bsdf_sample_weights, principled_lobe_weights,
      principled_sample_outside_object, Vec3.dot, boolToQ]

/-- C5 counterexample: for a pure-coat material
(`coat = 1, metallic = 0, specular_transmission = 0`, so the glass weight
is zero) with the view direction below the shading normal,
`principled_bsdf_sample` forces `outside_object = true` and computes a raw
coat weight of 1, while the claimed formula
`coat * outside_object` with `outside_object` the hemisphere test gives 0:
the sample-side weights differ from the claimed ones. -/
theorem principled_sample_weights_counterexample :
    (principled_bsdf_sample_weights
        ⟨1, 0, 0, 0, 0, 0, ColorRGB.white, ColorRGB.white⟩
        ⟨0, 0, -1⟩ ⟨0, 0, 1⟩).coat_weight = 1 ∧
    (⟨1, 0, 0, 0, 0, 0, ColorRGB.white, ColorRGB.white⟩ :
        SimplifiedRendererMaterial).coat
      * boolToQ (principled_eval_outside_object ⟨0, 0, -1⟩ ⟨0, 0, 1⟩) = 0 ∧
    principled_bsdf_sample_weights
        ⟨1, 0, 0, 0, 0, 0, ColorRGB.white, ColorRGB.white⟩
        ⟨0, 0, -1⟩ ⟨0, 0, 1⟩
      ≠ principled_bsdf_eval_weights
        ⟨1, 0, 0, 0, 0, 0, ColorRGB.white, ColorRGB.white⟩
        ⟨0, 0, -1⟩ ⟨0, 0, 1⟩ := by
  refine ⟨?_, ?_, ?_⟩
  · norm_num [principled_bsdf_sample_weights, principled_lobe_weights,
      principled_sample_outside_object, Vec3.dot, boolToQ]
  · norm_num [principled_eval_outside_object, Vec3.dot, boolToQ]
  · norm_num [principled_bsdf_sample_weights, principled_bsdf_eval_weights,
      principled_lobe_weights, principled_sample_outside_object,
      principled_eval_outside_object, Vec3.dot, boolToQ, LobeWeights.mk.injEq]

/-- C5 (amended): `principled_bsdf_eval` computes the raw lobe weights
`coat*outside_object, sheen*outside_object, metallic*outside_object,
(1-metallic)*(1-specular_transmission)*specular*outside_object,
(1-metallic)*(1-specular_transmission)*outside_object` with
`outside_object` the hemisphere test `dot(view, shading_normal) > 0`;
`principled_bsdf_sample` uses the same formulas but with `outside_object`
forced to `true` whenever the glass weight
`(1-metallic)*specular_transmission` is zero and the view is below the
normal; and when the hemisphere test is false every lobe of
`principled_bsdf_eval` (the glass lobe is absent from it) contributes zero
to the evaluated color and PDF. -/
theorem principled_lobe_weights_spec (material : SimplifiedRendererMaterial)
    (v n : Vec3) (coat sheen metal specular diffuse : LayerOracle)
    (h : principled_eval_outside_object v n = false) :
    (principled_bsdf_eval_weights material v n
      = { coat_weight := material.coat * boolToQ (principled_eval_outside_object v n)
          sheen_weight := material.sheen * boolToQ (principled_eval_outside_object v n)
          metal_weight := material.metallic * boolToQ (principled_eval_outside_object v n)
          specular_weight := (1 - material.metallic) * (1 - material.specular_transmission)
            * material.specular * boolToQ (principled_eval_outside_object v n)
          diffuse_weight := (1 - material.metallic) * (1 - material.specular_transmission)
            * boolToQ (principled_eval_outside_object v n) }) ∧
    (principled_bsdf_sample_weights material v n
      = { coat_weight := material.coat * boolToQ (principled_sample_outside_object material v n)
          sheen_weight := material.sheen * boolToQ (principled_sample_outside_object material v n)
          metal_weight := material.metallic * boolToQ (principled_sample_outside_object material v n)
          specular_weight := (1 - material.metallic) * (1 - material.specular_transmission)
            * material.specular * boolToQ (principled_sample_outside_object material v n)
          diffuse_weight := (1 - material.metallic) * (1 - material.specular_transmission)
            * boolToQ (principled_sample_outside_object material v n) }) ∧
    ((1 - material.metallic) * material.specular_transmission = 0 →
      principled_sample_outside_object material v n = true) ∧
    (principled_bsdf_eval material v n coat sheen metal specular diffuse).final_color
      = ColorRGB.black ∧
    (principled_bsdf_eval material v n coat sheen metal specular diffuse).pdf = 0 := by
  refine ⟨rfl, rfl, ?_, ?_, ?_⟩
  · intro hg
    unfold principled_sample_outside_object
    unfold principled_eval_outside_object at h
    simp [h, hg]
  · unfold principled_bsdf_eval principled_lobe_weights
    simp [h, boolToQ, internal_eval_coat_layer, internal_eval_sheen_layer,
      internal_eval_metal_layer, internal_eval_specular_layer, internal_eval_diffuse_layer]
  · unfold principled_bsdf_eval principled_lobe_weights
    simp [h, boolToQ, internal_eval_coat_layer, internal_eval_sheen_layer,
      internal_eval_metal_layer, internal_eval_specular_layer, internal_eval_diffuse_layer]

/-- Witness for C5 (amended) at a concrete input: metallic material seen
from inside; the eval cascade yields black color and zero PDF. -/
theorem principled_lobe_weights_spec_witness :
    (principled_eval_outside_object ⟨0, 0, -1⟩ ⟨0, 0, 1⟩ = false) ∧
    (principled_bsdf_eval ⟨0, 0, 1, 1, 1, 0, ColorRGB.white, ColorRGB.white⟩
      ⟨0, 0, -1⟩ ⟨0, 0, 1⟩ ⟨ColorRGB.white, 1, ColorRGB.white⟩
      ⟨ColorRGB.white, 1, ColorRGB.white⟩ ⟨ColorRGB.white, 1, ColorRGB.white⟩
      ⟨ColorRGB.white, 1, ColorRGB.white⟩ ⟨ColorRGB.white, 1, ColorRGB.white⟩).final_color
      = ColorRGB.black ∧
    (principled_bsdf_eval ⟨0, 0, 1, 1, 1, 0, ColorRGB.white, ColorRGB.white⟩
      ⟨0, 0, -1⟩ ⟨0, 0, 1⟩ ⟨ColorRGB.white, 1, ColorRGB.white⟩
      ⟨ColorRGB.white, 1, ColorRGB.white⟩ ⟨ColorRGB.white, 1, ColorRGB.white⟩
      ⟨ColorRGB.white, 1, ColorRGB.white⟩ ⟨ColorRGB.white, 1, ColorRGB.white⟩).pdf = 0 := by
  have hout : principled_eval_outside_object ⟨0, 0, -1⟩ ⟨0, 0, 1⟩ = false := by
    norm_num [principled_eval_outside_object, Vec3.dot]
  have h := principled_lobe_weights_spec ⟨0, 0, 1, 1, 1, 0, ColorRGB.white, ColorRGB.white⟩
    ⟨0, 0, -1⟩ ⟨0, 0, 1⟩ ⟨ColorRGB.white, 1, ColorRGB.white⟩
    ⟨ColorRGB.white, 1, ColorRGB.white⟩ ⟨ColorRGB.white, 1, ColorRGB.white⟩
    ⟨ColorRGB.white, 1, ColorRGB.white⟩ ⟨ColorRGB.white, 1, ColorRGB.white⟩ hout
  exact ⟨hout, h.2.2.2.1, h.2.2.2.2⟩

/-- Every output of the relative-IOR nudge is at least `1e-5` away
from 1. -/
theorem glass_nudge_bound (x : ℚ) : 1/100000 ≤ |glass_nudge_relative_eta x - 1| := by
  unfold glass_nudge_relative_eta
  split
  · norm_num [abs_of_pos]
  · next h => exact le_of_not_lt h

/-- C8: in both `principled_glass_eval` and `principled_glass_sample`, the
relative IOR actually used after the nudge is at least `1e-5` away from 1
(so the remainder of those functions never runs with a relative IOR within
`1e-5` of 1), it is never exactly 1, and for anti-parallel view/light
directions the generalized refraction half-vector
`to_light * relative_eta + view` is nonzero, so the degenerate zero-length
half-vector is unreachable. -/
theorem glass_relative_eta_nudge_spec (eta_t eta_i : ℚ) (v : Vec3)
    (hv : v ≠ Vec3.zero) :
    1/100000 ≤ |principled_glass_eval_relative_eta eta_t eta_i - 1| ∧
    1/100000 ≤ |principled_glass_sample_relative_eta eta_t eta_i - 1| ∧
    principled_glass_eval_relative_eta eta_t eta_i ≠ 1 ∧
    glass_refraction_half_vector (Vec3.neg v)
      (principled_glass_eval_relative_eta eta_t eta_i) v ≠ Vec3.zero := by
  have hb : 1/100000 ≤ |principled_glass_eval_relative_eta eta_t eta_i - 1| :=
    glass_nudge_bound _
  have hη : principled_glass_eval_relative_eta eta_t eta_i ≠ 1 := by
    intro h
    rw [h] at hb
    norm_num at hb
  refine ⟨hb, glass_nudge_bound _, hη, ?_⟩
  intro hzero
  apply hv
  have h1 : 1 - principled_glass_eval_relative_eta eta_t eta_i ≠ 0 :=
    sub_ne_zero.mpr (Ne.symm hη)
  have hx := congrArg Vec3.x hzero
  have hy := congrArg Vec3.y hzero
  have hz := congrArg Vec3.z hzero
  simp only [glass_refraction_half_vector, Vec3.add, Vec3.smul, Vec3.neg, Vec3.zero] at hx hy hz
  cases v with
  | mk a b c =>
    simp only [Vec3.zero, Vec3.mk.injEq]
    simp only at hx hy hz
    refine ⟨?_, ?_, ?_⟩
    · have h2 : a * (1 - principled_glass_eval_relative_eta eta_t eta_i) = 0 := by
        linear_combination hx
      rcases mul_eq_zero.mp h2 with h3 | h3
      · exact h3
      · exact absurd h3 h1
    · have h2 : b * (1 - principled_glass_eval_relative_eta eta_t eta_i) = 0 := by
        linear_combination hy
      rcases mul_eq_zero.mp h2 with h3 | h3
      · exact h3
      · exact absurd h3 h1
    · have h2 : c * (1 - principled_glass_eval_relative_eta eta_t eta_i) = 0 := by
        linear_combination hz
      rcases mul_eq_zero.mp h2 with h3 | h3
      · exact h3
      · exact absurd h3 h1

/-- Witness for C8 at a concrete input: two media with identical IOR 1
(relative eta exactly 1 before the nudge) and view direction `(0,0,1)`. -/
theorem glass_relative_eta_nudge_spec_witness :
    ((⟨0, 0, 1⟩ : Vec3) ≠ Vec3.zero) ∧
    1/100000 ≤ |principled_glass_eval_relative_eta 1 1 - 1| ∧
    principled_glass_eval_relative_eta 1 1 ≠ 1 ∧
    glass_refraction_half_vector (Vec3.neg ⟨0, 0, 1⟩)
      (principled_glass_eval_relative_eta 1 1) ⟨0, 0, 1⟩ ≠ Vec3.zero := by
  have hv : (⟨0, 0, 1⟩ : Vec3) ≠ Vec3.zero := by
    norm_num [Vec3.zero, Vec3.mk.injEq]
  have h := glass_relative_eta_nudge_spec 1 1 ⟨0, 0, 1⟩ hv
  exact ⟨hv, h.1, h.2.2.1, h.2.2.2⟩

/-- Witness for C7 (amended) at a concrete input: one qualifying neighbor
with `M = 3` gives `Z = 3`, and a zero denominator finalizes `UCW = 0`. -/
theorem spatial_reuse_one_over_Z_spec_witness :
    spatial_reuse_Z (FNum.fin 1) [⟨true, FNum.fin 2, 3⟩] = FNum.fin 3 ∧
    ((⟨0, FNum.fin 1, FNum.fin 0, ⟨-1, Vec3.zero, FNum.fin 2⟩⟩ :
        ReSTIRDIReservoir).end_with_normalization (FNum.fin 1) (FNum.fin 0)).UCW
      = FNum.fin 0 := by
  have h := spatial_reuse_one_over_Z_spec (FNum.fin 1) [⟨true, FNum.fin 2, 3⟩]
    ⟨0, FNum.fin 1, FNum.fin 0, ⟨-1, Vec3.zero, FNum.fin 2⟩⟩ 0
  constructor
  · rw [h.1 (by norm_num)]
    norm_num [ZNeighborInfo.qualifies]
  · rw [h.2.2]
    norm_num
